import Mathlib

/-!
Shallow embedding of the pandemic-flu-spread simulation engine
(`src/simulation.py`) and proofs about its specified properties.

Python floats are modelled as exact rationals (`ℚ`); Python `int(x)` on a
number is truncation toward zero (`ratTrunc`).  The single seeded
`random.Random` instance owned by the simulation is modelled as an explicit
`RandomSource` state threaded through every operation in the order the
source consumes draws: `random()` pops the `floats` stream and
`random.sample` consumes the `ints` stream, one draw per selected element.

The `Person` and `StatisticsCollector` collaborators live outside the
repository's source tree; their observable behaviour is modelled from the
spec where marked.
-/

namespace PandemicSim

unseal Rat.mul Rat.inv Rat.add Rat.sub

/-- Python `int(q)` for a rational: truncation toward zero. -/
def ratTrunc (q : ℚ) : Int := q.num.tdiv q.den

/-- Modelled from the spec: the Person health-state machine's closed set of
states (susceptible, infected/incubating, infectious, recovered, dead). -/
inductive HealthStatus where
  | susceptible
  | infected
  | infectious
  | recovered
  | dead
deriving DecidableEq, Repr

/-- Modelled from the spec: the observable state of the external `Person`
collaborator — identity, health status, a days-in-current-status counter for
the incubation/infectious countdowns, and the mitigation attributes
(`masked`, `social_distancing`, `vaccination_doses`). -/
structure Person where
  id : Nat
  status : HealthStatus
  days_in_status : Nat
  masked : Bool
  social_distancing : Bool
  vaccination_doses : Nat
deriving DecidableEq, Repr

instance : Inhabited Person := ⟨⟨0, .susceptible, 0, false, false, 0⟩⟩

def Person.is_susceptible (p : Person) : Bool :=
  match p.status with
  | .susceptible => true
  | _ => false

def Person.is_infected (p : Person) : Bool :=
  match p.status with
  | .infected => true
  | _ => false

def Person.is_infectious (p : Person) : Bool :=
  match p.status with
  | .infectious => true
  | _ => false

/-- Modelled from the spec: `Person.infected()` transitions a susceptible
person to infected; on an already-infected or immune person it is a no-op
(the spec's documented policy choice). -/
def Person.infected (p : Person) : Person :=
  if p.status = HealthStatus.susceptible then
    { p with status := HealthStatus.infected, days_in_status := 0 }
  else p

/-- The explicit model of the single seeded `random.Random` generator:
`floats` feeds `random()` (values in `[0,1)`) and `ints` feeds the index
choices made by `random.sample`. -/
structure RandomSource where
  floats : List ℚ
  ints : List Nat
deriving DecidableEq, Repr

/-- `random()`: pop the next uniform `[0,1)` draw (0 when the modelled
stream is exhausted). -/
def nextFloat (r : RandomSource) : ℚ × RandomSource :=
  match r.floats with
  | [] => (0, r)
  | x :: rest => (x, { r with floats := rest })

/-- One raw integer draw for sampling (0 when the modelled stream is
exhausted). -/
def nextNat (r : RandomSource) : Nat × RandomSource :=
  match r.ints with
  | [] => (0, r)
  | n :: rest => (n, { r with ints := rest })

/-- `random.sample(xs, k)`: `k` distinct elements drawn without replacement,
modelled by repeatedly removing the element at a drawn index of the
remaining pool. -/
def sample : RandomSource → List Nat → Nat → List Nat × RandomSource
  | r, _, 0 => ([], r)
  | r, xs, k + 1 =>
    if xs.length = 0 then ([], r)
    else
      let n := (nextNat r).1
      let r1 := (nextNat r).2
      let i := n % xs.length
      let rest := sample r1 (xs.eraseIdx i) k
      (xs.getD i 0 :: rest.1, rest.2)

/-- A well-formed float stream: every pending `random()` draw lies in
`[0,1)`, as Python's generator guarantees. -/
def WFFloats (r : RandomSource) : Prop := ∀ x ∈ r.floats, 0 ≤ x ∧ x < 1

/-- The mutable simulation state held by the `Simulation` object: the
population plus the configuration fields stored by `__init__`, the day
counter and the shared random generator. -/
structure SimState where
  population : List Person
  infection_rate : ℚ
  incubation_period : Nat
  infectious_period : Nat
  base_contacts : Nat
  social_distancing_rate : ℚ
  mortality_rate : ℚ
  mask_effectiveness : ℚ
  partial_vaccine_effectiveness : ℚ
  full_vaccine_effectiveness : ℚ
  day : Nat
  rng : RandomSource
deriving DecidableEq, Repr

/-- `Simulation.apply_mask_effect`: multiply the rate by
`mask_effectiveness` when the given person is masked. -/
def apply_mask_effect (s : SimState) (base_rate : ℚ) (person : Person) : ℚ :=
  if person.masked then base_rate * s.mask_effectiveness
  else base_rate

/-- `Simulation.apply_vaccine_effect`: one dose multiplies by
`partial_vaccine_effectiveness`, two or more by
`full_vaccine_effectiveness`, zero doses leave the rate unchanged. -/
def apply_vaccine_effect (s : SimState) (base_rate : ℚ) (person : Person) : ℚ :=
  if person.vaccination_doses = 1 then base_rate * s.partial_vaccine_effectiveness
  else if 2 ≤ person.vaccination_doses then base_rate * s.full_vaccine_effectiveness
  else base_rate

/-- `Simulation.calculate_infection_chance`: the infectious person's mask,
the susceptible person's mask, the susceptible person's vaccination, then a
cap at 1.0. -/
def calculate_infection_chance
    (s : SimState) (infectious_person susceptible_person : Person) : ℚ :=
  min
    (apply_vaccine_effect s
      (apply_mask_effect s
        (apply_mask_effect s s.infection_rate infectious_person)
        susceptible_person)
      susceptible_person)
    1

/-- The vaccination multiplier applied to the susceptible person, as a
stand-alone function of the dose count. -/
def vaccineFactor (pv fv : ℚ) (doses : Nat) : ℚ :=
  if doses = 1 then pv else if 2 ≤ doses then fv else 1

/-- Look a person up by id in the population (models Python's references
into `self.population`; ids are unique by construction). -/
def getPerson (pop : List Person) (i : Nat) : Person :=
  (pop.find? (fun p => p.id == i)).getD default

/-- In-place `person.infected()` on the population member with the given
id. -/
def infectById (pop : List Person) (idx : Nat) : List Person :=
  pop.map fun p => if p.id = idx then p.infected else p

/-- The contact count an infectious person attempts, as the source computes
it: `int(base_contacts * social_distancing_rate)` under distancing, else
`base_contacts`; then `max(1, ·)` and `min(·, len(susceptible))`. -/
def num_contacts_for (st : SimState) (inf : Person) (nsus : Nat) : Int :=
  let raw : Int :=
    if inf.social_distancing then
      ratTrunc ((st.base_contacts : ℚ) * st.social_distancing_rate)
    else (st.base_contacts : Int)
  min (max 1 raw) (nsus : Int)

/-- One sampled contact: compute the infection chance from the current
state of both persons, draw `random()`, and infect on success (the draw is
consumed and the roll made even if the contact was already infected earlier
the same day; `infected()` is then a no-op). -/
def processContact (inf_id : Nat) (st : SimState) (sid : Nat) : SimState :=
  let inf := getPerson st.population inf_id
  let sus := getPerson st.population sid
  let chance := calculate_infection_chance st inf sus
  let d := (nextFloat st.rng).1
  let r1 := (nextFloat st.rng).2
  if d < chance then
    { st with population := infectById st.population sid, rng := r1 }
  else { st with rng := r1 }

/-- The body of the loop over infectious people in
`simulate_interactions`: clamp the contact count, skip when it is zero
(empty susceptible pool), otherwise sample that many distinct contacts from
the frozen susceptible-id snapshot and process each. -/
def processInfectious (susceptible_ids : List Nat) (st : SimState) (inf_id : Nat) :
    SimState :=
  let inf := getPerson st.population inf_id
  let num_contacts := num_contacts_for st inf susceptible_ids.length
  if num_contacts = 0 then st
  else
    let res := sample st.rng susceptible_ids num_contacts.toNat
    res.1.foldl (processContact inf_id) { st with rng := res.2 }

/-- `Simulation.simulate_interactions`: partition the population into the
susceptible and infectious snapshots (order preserved), then let each
infectious person sample and possibly infect contacts; infections apply
immediately while the sampling pool stays frozen. -/
def simulate_interactions (s : SimState) : SimState :=
  let susceptible_ids := (s.population.filter Person.is_susceptible).map Person.id
  let infectious_ids := (s.population.filter Person.is_infectious).map Person.id
  infectious_ids.foldl (processInfectious susceptible_ids) s

/-- Modelled from the spec: `Person.update_health_status` advances one day
of disease progression — incubation countdown to infectious, infectious
countdown to a recovery-or-death decision by a mortality coin-flip on the
shared random source. -/
def Person.update_health_status (p : Person) (incubation_period infectious_period : Nat)
    (mortality_rate : ℚ) (r : RandomSource) : Person × RandomSource :=
  match p.status with
  | .infected =>
    if incubation_period ≤ p.days_in_status + 1 then
      ({ p with status := HealthStatus.infectious, days_in_status := 0 }, r)
    else ({ p with days_in_status := p.days_in_status + 1 }, r)
  | .infectious =>
    if infectious_period ≤ p.days_in_status + 1 then
      if (nextFloat r).1 < mortality_rate then
        ({ p with status := HealthStatus.dead, days_in_status := 0 }, (nextFloat r).2)
      else ({ p with status := HealthStatus.recovered, days_in_status := 0 }, (nextFloat r).2)
    else ({ p with days_in_status := p.days_in_status + 1 }, r)
  | _ => (p, r)

/-- `Simulation.update_health_statuses`: every person advances one day, in
population order, threading the shared random source. -/
def update_health_statuses (s : SimState) : SimState :=
  let step := fun (acc : List Person × RandomSource) (p : Person) =>
    let pr := p.update_health_status s.incubation_period s.infectious_period
      s.mortality_rate acc.2
    (acc.1 ++ [pr.1], pr.2)
  let res := s.population.foldl step ([], s.rng)
  { s with population := res.1, rng := res.2 }

/-- The optional pluggable policy callables, modelled at the granularity the
spec fixes: mask and distancing policies act per person, the vaccination
policy acts once per day on the whole population. -/
structure Policies where
  mask_policy : Option (Person → Person)
  dist_policy : Option (Person → Person)
  vac_policy : Option (List Person → List Person)

def applyOpt (f : Option (Person → Person)) (p : Person) : Person :=
  match f with
  | none => p
  | some g => g p

/-- `Simulation.apply_policies`: per person the mask policy then the
distancing policy, then the vaccination policy once per day. -/
def apply_policies (pol : Policies) (s : SimState) : SimState :=
  let pop1 := s.population.map fun p => applyOpt pol.dist_policy (applyOpt pol.mask_policy p)
  let pop2 :=
    match pol.vac_policy with
    | none => pop1
    | some g => g pop1
  { s with population := pop2 }

/-- `Simulation.simulate_day`: health update, then policies, then
interactions — in that fixed order. -/
def simulate_day (pol : Policies) (s : SimState) : SimState :=
  simulate_interactions (apply_policies pol (update_health_statuses s))

/-- `any(person.is_infected or person.is_infectious ...)`: the run loop's
stopping predicate is the negation of this. -/
def hasActiveInfections (pop : List Person) : Bool :=
  pop.any fun p => p.is_infected || p.is_infectious

/-- `Simulation.run`, with explicit fuel standing for the unbounded
day-by-day loop: each iteration simulates a day, records `(day, population)`
for the statistics collector, and exits exactly when no person is infected
or infectious, otherwise increments the day counter and continues.  `none`
means the fuel ran out before the stopping predicate held. -/
def runLoop (pol : Policies) :
    Nat → SimState → List (Nat × List Person) →
      Option (SimState × List (Nat × List Person))
  | 0, _, _ => none
  | fuel + 1, s, log =>
    let s1 := simulate_day pol s
    let log1 := log ++ [(s1.day, s1.population)]
    if hasActiveInfections s1.population then
      runLoop pol fuel { s1 with day := s1.day + 1 } log1
    else some (s1, log1)

/-- The dynamically-typed `initial_infected` argument: a Python `int`, a
Python `float` (modelled as an exact rational), or a value of any other
type. -/
inductive InitialInfected where
  | int (n : Int)
  | float (q : ℚ)
  | other
deriving DecidableEq, Repr

/-- The distinct construction-time errors, one per `raise` in
`Simulation.__init__` (all `ValueError`s naming the offending field, plus
the `TypeError` for a mistyped `initial_infected`). -/
inductive ConfigError where
  | invalidPopulationSize
  | invalidInitialInfectedInt
  | invalidInitialInfectedFloat
  | invalidInitialInfectedType
  | invalidInfectionRate
  | invalidIncubationPeriod
  | invalidInfectiousPeriod
  | invalidBaseContacts
  | invalidSocialDistancingRate
  | invalidMortalityRate
deriving DecidableEq, Repr

/-- The constructor arguments of `Simulation.__init__` that participate in
validation or in the initial state. -/
structure SimConfig where
  population_size : Int
  initial_infected : InitialInfected
  infection_rate : ℚ
  incubation_period : Int
  infectious_period : Int
  base_contacts : Int
  social_distancing_rate : ℚ
  mortality_rate : ℚ
  mask_effectiveness : ℚ
  partial_vaccine_effectiveness : ℚ
  full_vaccine_effectiveness : ℚ
deriving DecidableEq, Repr

/-- The validation checks of `Simulation.__init__` that follow the
`initial_infected` branch, in source order; `k` is the already-resolved
count of initially infected. -/
def validateRest (cfg : SimConfig) (k : Nat) : Except ConfigError Nat :=
  if ¬ (0 ≤ cfg.infection_rate ∧ cfg.infection_rate ≤ 1) then
    Except.error ConfigError.invalidInfectionRate
  else if cfg.incubation_period ≤ 0 then Except.error ConfigError.invalidIncubationPeriod
  else if cfg.infectious_period ≤ 0 then Except.error ConfigError.invalidInfectiousPeriod
  else if cfg.base_contacts < 0 then Except.error ConfigError.invalidBaseContacts
  else if ¬ (0 ≤ cfg.social_distancing_rate ∧ cfg.social_distancing_rate ≤ 1) then
    Except.error ConfigError.invalidSocialDistancingRate
  else if ¬ (0 ≤ cfg.mortality_rate ∧ cfg.mortality_rate ≤ 1) then
    Except.error ConfigError.invalidMortalityRate
  else Except.ok k

/-- The validation prefix of `Simulation.__init__`, in source order,
returning the resolved `num_initial_infected` on success.  A fractional
`initial_infected` resolves through Python's
`int(population_size * initial_infected)`. -/
def validate (cfg : SimConfig) : Except ConfigError Nat :=
  if cfg.population_size ≤ 0 then Except.error ConfigError.invalidPopulationSize
  else
    match cfg.initial_infected with
    | InitialInfected.int n =>
      if ¬ (0 ≤ n ∧ n ≤ cfg.population_size) then
        Except.error ConfigError.invalidInitialInfectedInt
      else validateRest cfg n.toNat
    | InitialInfected.float q =>
      if ¬ (0 ≤ q ∧ q ≤ 1) then Except.error ConfigError.invalidInitialInfectedFloat
      else validateRest cfg (ratTrunc ((cfg.population_size : ℚ) * q)).toNat
    | InitialInfected.other => Except.error ConfigError.invalidInitialInfectedType

/-- A fresh person as `Person(id=i)` creates one: susceptible, no
mitigation. -/
def initPerson (i : Nat) : Person :=
  { id := i, status := HealthStatus.susceptible, days_in_status := 0,
    masked := false, social_distancing := false, vaccination_doses := 0 }

/-- `Simulation.__init__` after validation: build the population with
sequential ids, draw `num_initial_infected` distinct ids by
`random.sample(range(population_size), ·)` on the seeded generator, and
transition each drawn person to infected.  A validation failure constructs
no state. -/
def construct (cfg : SimConfig) (rng : RandomSource) : Except ConfigError SimState :=
  match validate cfg with
  | Except.error e => Except.error e
  | Except.ok k =>
    let ps := cfg.population_size.toNat
    let pop := (List.range ps).map initPerson
    let res := sample rng (List.range ps) k
    Except.ok
      { population := res.1.foldl infectById pop
        infection_rate := cfg.infection_rate
        incubation_period := cfg.incubation_period.toNat
        infectious_period := cfg.infectious_period.toNat
        base_contacts := cfg.base_contacts.toNat
        social_distancing_rate := cfg.social_distancing_rate
        mortality_rate := cfg.mortality_rate
        mask_effectiveness := cfg.mask_effectiveness
        partial_vaccine_effectiveness := cfg.partial_vaccine_effectiveness
        full_vaccine_effectiveness := cfg.full_vaccine_effectiveness
        day := 0
        rng := res.2 }

/-- Construct and run: the whole observable behaviour of a simulation for a
given configuration and seed — the constructed state and, fuel permitting,
the terminal state with the per-day statistics log. -/
def runSimulation (pol : Policies) (fuel : Nat) (cfg : SimConfig) (rng : RandomSource) :
    Except ConfigError (Option (SimState × List (Nat × List Person))) :=
  (construct cfg rng).map fun s => runLoop pol fuel s []

/-- The number of persons currently in status infected. -/
def countInfected (pop : List Person) : Nat :=
  (pop.filter fun p => decide (p.status = HealthStatus.infected)).length

/-- The spec's validation rules before the rate/period/contact checks, in
the spec's order, each as (violated?, its error): population size, then the
three mutually exclusive `initial_infected` failures. -/
def specRulesHead (cfg : SimConfig) : List (Bool × ConfigError) :=
  [ (decide (cfg.population_size ≤ 0), ConfigError.invalidPopulationSize),
    ((match cfg.initial_infected with
      | InitialInfected.int n => decide (¬ (0 ≤ n ∧ n ≤ cfg.population_size))
      | _ => false), ConfigError.invalidInitialInfectedInt),
    ((match cfg.initial_infected with
      | InitialInfected.float q => decide (¬ (0 ≤ q ∧ q ≤ 1))
      | _ => false), ConfigError.invalidInitialInfectedFloat),
    ((match cfg.initial_infected with
      | InitialInfected.other => true
      | _ => false), ConfigError.invalidInitialInfectedType) ]

/-- The spec's remaining validation rules, in the spec's order. -/
def specRulesTail (cfg : SimConfig) : List (Bool × ConfigError) :=
  [ (decide (¬ (0 ≤ cfg.infection_rate ∧ cfg.infection_rate ≤ 1)),
      ConfigError.invalidInfectionRate),
    (decide (cfg.incubation_period ≤ 0), ConfigError.invalidIncubationPeriod),
    (decide (cfg.infectious_period ≤ 0), ConfigError.invalidInfectiousPeriod),
    (decide (cfg.base_contacts < 0), ConfigError.invalidBaseContacts),
    (decide (¬ (0 ≤ cfg.social_distancing_rate ∧ cfg.social_distancing_rate ≤ 1)),
      ConfigError.invalidSocialDistancingRate),
    (decide (¬ (0 ≤ cfg.mortality_rate ∧ cfg.mortality_rate ≤ 1)),
      ConfigError.invalidMortalityRate) ]

/-- All validation rules in the spec's order.  Note that the rules mention
neither `mask_effectiveness` nor the vaccine effectiveness factors. -/
def specRules (cfg : SimConfig) : List (Bool × ConfigError) :=
  specRulesHead cfg ++ specRulesTail cfg

/-- The first violated rule's error, if any: the spec's
"first failure wins" reading of construction. -/
def firstViolation (cfg : SimConfig) : Option ConfigError :=
  ((specRules cfg).find? fun r => r.1).map fun r => r.2

/-- The resolved count of initially infected, per the spec's words: an
integer is taken as is, a fraction is converted via
`floor(population_size * fraction)`. -/
def resolvedCount (cfg : SimConfig) : Nat :=
  match cfg.initial_infected with
  | InitialInfected.int n => n.toNat
  | InitialInfected.float q => (ratTrunc ((cfg.population_size : ℚ) * q)).toNat
  | InitialInfected.other => 0

/-- One marking step of `infectById`, singled out for the bookkeeping
lemmas about initial infection. -/
def markStep (a : Nat) (p : Person) : Person :=
  if p.id = a then p.infected else p

/-- Fold `markStep` over a list of drawn ids. -/
def markIds (ids : List Nat) (p : Person) : Person :=
  ids.foldl (fun q a => markStep a q) p

/-- A concrete two-person state with `base_contacts = 0`: person 0 is
infectious, person 1 susceptible, nobody masked, distanced or vaccinated;
the pending draws select person 1 and roll 0. -/
def cs2 : SimState :=
  { population :=
      [ { id := 0, status := HealthStatus.infectious, days_in_status := 0,
          masked := false, social_distancing := false, vaccination_doses := 0 },
        { id := 1, status := HealthStatus.susceptible, days_in_status := 0,
          masked := false, social_distancing := false, vaccination_doses := 0 } ]
    infection_rate := 1/2
    incubation_period := 3
    infectious_period := 5
    base_contacts := 0
    social_distancing_rate := 1/2
    mortality_rate := 0
    mask_effectiveness := 1/2
    partial_vaccine_effectiveness := 7/10
    full_vaccine_effectiveness := 3/10
    day := 0
    rng := { floats := [0], ints := [0] } }

/-- `cs2` with a zero infection rate. -/
def cs2zero : SimState := { cs2 with infection_rate := 0 }

/-- A valid configuration with `population_size = 50` and
`initial_infected` the fraction `0.1`. -/
def cfg50 : SimConfig :=
  { population_size := 50
    initial_infected := InitialInfected.float (1/10)
    infection_rate := 3/10
    incubation_period := 3
    infectious_period := 5
    base_contacts := 10
    social_distancing_rate := 1/2
    mortality_rate := 0
    mask_effectiveness := 1/2
    partial_vaccine_effectiveness := 7/10
    full_vaccine_effectiveness := 3/10 }

/-- A concrete random source for the `cfg50` runs. -/
def rng50 : RandomSource := { floats := [], ints := [7, 3, 11, 0, 5] }

/-- No policy callables configured. -/
def pol0 : Policies := { mask_policy := none, dist_policy := none, vac_policy := none }

/-- The state `construct cfg50 rng50` yields. -/
def s50 : SimState := ((construct cfg50 rng50).toOption).getD
  { population := []
    infection_rate := 0
    incubation_period := 1
    infectious_period := 1
    base_contacts := 0
    social_distancing_rate := 0
    mortality_rate := 0
    mask_effectiveness := 0
    partial_vaccine_effectiveness := 0
    full_vaccine_effectiveness := 0
    day := 0
    rng := { floats := [], ints := [] } }

/-- A one-person, all-susceptible state: the run loop stops after its first
day. -/
def sQuiet : SimState :=
  { population :=
      [ { id := 0, status := HealthStatus.susceptible, days_in_status := 0,
          masked := false, social_distancing := false, vaccination_doses := 0 } ]
    infection_rate := 3/10
    incubation_period := 3
    infectious_period := 5
    base_contacts := 10
    social_distancing_rate := 1/2
    mortality_rate := 0
    mask_effectiveness := 1/2
    partial_vaccine_effectiveness := 7/10
    full_vaccine_effectiveness := 3/10
    day := 0
    rng := { floats := [], ints := [] } }

/-- A state whose infectious person is masked while `mask_effectiveness` is
negative: the computed infection chance goes below zero. -/
def cs10 : SimState :=
  { cs2 with
    mask_effectiveness := -1
    population :=
      [ { id := 0, status := HealthStatus.infectious, days_in_status := 0,
          masked := true, social_distancing := false, vaccination_doses := 0 },
        { id := 1, status := HealthStatus.susceptible, days_in_status := 0,
          masked := false, social_distancing := false, vaccination_doses := 0 } ] }

/-! ## Theorems -/

theorem calculate_infection_chance_eq (s : SimState) (inf sus : Person) :
    calculate_infection_chance s inf sus =
      min (s.infection_rate
            * (if inf.masked then s.mask_effectiveness else 1)
            * (if sus.masked then s.mask_effectiveness else 1)
            * vaccineFactor s.partial_vaccine_effectiveness
                s.full_vaccine_effectiveness sus.vaccination_doses) 1 := by
  unfold calculate_infection_chance apply_mask_effect apply_vaccine_effect vaccineFactor
  rcases h1 : inf.masked <;> rcases h2 : sus.masked <;>
    by_cases hd : sus.vaccination_doses = 1 <;>
    by_cases hd2 : 2 ≤ sus.vaccination_doses <;>
    simp [h1, h2, hd, hd2]

theorem vaccineFactor_nonneg {pv fv : ℚ} (hp : 0 ≤ pv) (hf : 0 ≤ fv) (d : Nat) :
    0 ≤ vaccineFactor pv fv d := by
  unfold vaccineFactor
  split_ifs <;> first | exact hp | exact hf | norm_num

theorem vaccineFactor_le_one {pv fv : ℚ} (hp : pv ≤ 1) (hf : fv ≤ 1) (d : Nat) :
    vaccineFactor pv fv d ≤ 1 := by
  unfold vaccineFactor
  split_ifs <;> first | exact hp | exact hf | norm_num

/-- C1: `calculate_infection_chance` returns `min(r, 1.0)` where `r` is
`infection_rate`, multiplied by `mask_effectiveness` once if the infectious
person is masked and once more if the susceptible person is masked, then by
`partial_vaccine_effectiveness` for exactly one dose, by
`full_vaccine_effectiveness` for two or more doses and left unchanged for
zero doses; and the infectious person's vaccination doses have no effect on
the result. -/
theorem infection_chance_formula (s : SimState) (inf sus : Person) :
    calculate_infection_chance s inf sus =
      min (s.infection_rate
            * (if inf.masked then s.mask_effectiveness else 1)
            * (if sus.masked then s.mask_effectiveness else 1)
            * (if sus.vaccination_doses = 1 then s.partial_vaccine_effectiveness
               else if 2 ≤ sus.vaccination_doses then s.full_vaccine_effectiveness
               else 1)) 1
    ∧ ∀ d : Nat,
        calculate_infection_chance s { inf with vaccination_doses := d } sus =
          calculate_infection_chance s inf sus := by
  constructor
  · rw [calculate_infection_chance_eq]
    rfl
  · intro d
    rw [calculate_infection_chance_eq, calculate_infection_chance_eq]

/-- C7: with `infection_rate` and all three effectiveness factors in
`[0,1]`, the computed infection chance lies in `[0,1]` for every masking
and vaccination status of the two persons. -/
theorem infection_chance_in_unit_interval (s : SimState) (inf sus : Person)
    (h1 : 0 ≤ s.infection_rate) (h2 : s.infection_rate ≤ 1)
    (h3 : 0 ≤ s.mask_effectiveness) (h4 : s.mask_effectiveness ≤ 1)
    (h5 : 0 ≤ s.partial_vaccine_effectiveness) (h6 : s.partial_vaccine_effectiveness ≤ 1)
    (h7 : 0 ≤ s.full_vaccine_effectiveness) (h8 : s.full_vaccine_effectiveness ≤ 1) :
    0 ≤ calculate_infection_chance s inf sus ∧
      calculate_infection_chance s inf sus ≤ 1 := by
  rw [calculate_infection_chance_eq]
  have ha : (0:ℚ) ≤ (if inf.masked then s.mask_effectiveness else 1) := by
    split_ifs
    · exact h3
    · norm_num
  have hb : (0:ℚ) ≤ (if sus.masked then s.mask_effectiveness else 1) := by
    split_ifs
    · exact h3
    · norm_num
  have hv : (0:ℚ) ≤ vaccineFactor s.partial_vaccine_effectiveness
      s.full_vaccine_effectiveness sus.vaccination_doses :=
    vaccineFactor_nonneg h5 h7 _
  constructor
  · exact le_min (mul_nonneg (mul_nonneg (mul_nonneg h1 ha) hb) hv) (by norm_num)
  · exact min_le_right _ _

/-- C7 witness: the bounds at a concrete state with everyone unmasked and
unvaccinated and `infection_rate = 3/10`. -/
theorem infection_chance_in_unit_interval_witness :
    0 ≤ calculate_infection_chance sQuiet default default ∧
      calculate_infection_chance sQuiet default default ≤ 1 :=
  infection_chance_in_unit_interval sQuiet default default
    (by norm_num [sQuiet]) (by norm_num [sQuiet]) (by norm_num [sQuiet])
    (by norm_num [sQuiet]) (by norm_num [sQuiet]) (by norm_num [sQuiet])
    (by norm_num [sQuiet]) (by norm_num [sQuiet])

/-- C10: the result of `calculate_infection_chance` is clamped only from
above — it never exceeds 1.0 for any parameter values — and there is no
lower clamp: at `cs10` (a masked infectious person with
`mask_effectiveness = -1` and `infection_rate = 1/2`) the returned value is
strictly negative. -/
theorem infection_chance_upper_clamp_only :
    (∀ (s : SimState) (inf sus : Person), calculate_infection_chance s inf sus ≤ 1)
    ∧ calculate_infection_chance cs10 (getPerson cs10.population 0)
        (getPerson cs10.population 1) < 0 := by
  constructor
  · intro s inf sus
    rw [calculate_infection_chance_eq]
    exact min_le_right _ _
  · decide

/-- C8: for fixed persons, `infection_rate ∈ [0,1]` and non-negative
effectiveness factors, lowering `mask_effectiveness` (when at least one
party is masked), lowering `partial_vaccine_effectiveness` (when the
susceptible person has exactly one dose) or lowering
`full_vaccine_effectiveness` (when they have two or more doses) never
increases the returned probability. -/
theorem infection_chance_monotone (s : SimState) (inf sus : Person) (m2 pv2 fv2 : ℚ)
    (hr0 : 0 ≤ s.infection_rate) (hr1 : s.infection_rate ≤ 1)
    (hm20 : 0 ≤ m2) (hm2le : m2 ≤ s.mask_effectiveness)
    (hpv20 : 0 ≤ pv2) (hpv2le : pv2 ≤ s.partial_vaccine_effectiveness)
    (hfv20 : 0 ≤ fv2) (hfv2le : fv2 ≤ s.full_vaccine_effectiveness) :
    ((inf.masked = true ∨ sus.masked = true) →
      calculate_infection_chance { s with mask_effectiveness := m2 } inf sus ≤
        calculate_infection_chance s inf sus) ∧
    (sus.vaccination_doses = 1 →
      calculate_infection_chance { s with partial_vaccine_effectiveness := pv2 } inf sus ≤
        calculate_infection_chance s inf sus) ∧
    (2 ≤ sus.vaccination_doses →
      calculate_infection_chance { s with full_vaccine_effectiveness := fv2 } inf sus ≤
        calculate_infection_chance s inf sus) := by
  have hm0 : 0 ≤ s.mask_effectiveness := le_trans hm20 hm2le
  have hpv0 : 0 ≤ s.partial_vaccine_effectiveness := le_trans hpv20 hpv2le
  have hfv0 : 0 ≤ s.full_vaccine_effectiveness := le_trans hfv20 hfv2le
  have hv0 : 0 ≤ vaccineFactor s.partial_vaccine_effectiveness
      s.full_vaccine_effectiveness sus.vaccination_doses :=
    vaccineFactor_nonneg hpv0 hfv0 _
  refine ⟨?_, ?_, ?_⟩
  · intro hmask
    rw [calculate_infection_chance_eq, calculate_infection_chance_eq]
    refine min_le_min ?_ le_rfl
    rcases hi : inf.masked <;> rcases hs : sus.masked <;> simp <;> gcongr
  · intro hd
    rw [calculate_infection_chance_eq, calculate_infection_chance_eq]
    refine min_le_min ?_ le_rfl
    have ha : (0:ℚ) ≤ (if inf.masked then s.mask_effectiveness else 1) := by
      split_ifs
      · exact hm0
      · norm_num
    have hb : (0:ℚ) ≤ (if sus.masked then s.mask_effectiveness else 1) := by
      split_ifs
      · exact hm0
      · norm_num
    simp only [vaccineFactor, hd, if_true]
    gcongr
  · intro hd
    rw [calculate_infection_chance_eq, calculate_infection_chance_eq]
    refine min_le_min ?_ le_rfl
    have hd1 : ¬ sus.vaccination_doses = 1 := by omega
    have ha : (0:ℚ) ≤ (if inf.masked then s.mask_effectiveness else 1) := by
      split_ifs
      · exact hm0
      · norm_num
    have hb : (0:ℚ) ≤ (if sus.masked then s.mask_effectiveness else 1) := by
      split_ifs
      · exact hm0
      · norm_num
    simp only [vaccineFactor, hd, hd1, if_true, if_false]
    gcongr

/-- C8 witness: the monotonicity conclusions at `cs2` with the lowered
factors `m2 = 1/4`, `pv2 = 1/2`, `fv2 = 1/5`. -/
theorem infection_chance_monotone_witness :
    ((getPerson cs2.population 0).masked = true ∨
        (getPerson cs2.population 1).masked = true →
      calculate_infection_chance { cs2 with mask_effectiveness := 1/4 }
          (getPerson cs2.population 0) (getPerson cs2.population 1) ≤
        calculate_infection_chance cs2
          (getPerson cs2.population 0) (getPerson cs2.population 1)) ∧
    ((getPerson cs2.population 1).vaccination_doses = 1 →
      calculate_infection_chance { cs2 with partial_vaccine_effectiveness := 1/2 }
          (getPerson cs2.population 0) (getPerson cs2.population 1) ≤
        calculate_infection_chance cs2
          (getPerson cs2.population 0) (getPerson cs2.population 1)) ∧
    (2 ≤ (getPerson cs2.population 1).vaccination_doses →
      calculate_infection_chance { cs2 with full_vaccine_effectiveness := 1/5 }
          (getPerson cs2.population 0) (getPerson cs2.population 1) ≤
        calculate_infection_chance cs2
          (getPerson cs2.population 0) (getPerson cs2.population 1)) :=
  infection_chance_monotone cs2 (getPerson cs2.population 0) (getPerson cs2.population 1)
    (1/4) (1/2) (1/5)
    (by norm_num [cs2]) (by norm_num [cs2]) (by norm_num) (by norm_num [cs2])
    (by norm_num) (by norm_num [cs2]) (by norm_num) (by norm_num [cs2])

theorem WFFloats_tail (r : RandomSource) (h : WFFloats r) : WFFloats (nextFloat r).2 := by
  cases hf : r.floats with
  | nil =>
    intro x hx
    exact h x (by simpa [nextFloat, hf] using hx)
  | cons a t =>
    intro x hx
    refine h x ?_
    rw [hf]
    simp only [nextFloat, hf] at hx
    exact List.mem_cons_of_mem a hx

theorem nextFloat_nonneg (r : RandomSource) (h : WFFloats r) : 0 ≤ (nextFloat r).1 := by
  cases hf : r.floats with
  | nil => simp [nextFloat, hf]
  | cons a t =>
    simp only [nextFloat, hf]
    exact (h a (by rw [hf]; exact List.mem_cons_self a t)).1

theorem nextNat_floats (r : RandomSource) : ((nextNat r).2).floats = r.floats := by
  cases h : r.ints <;> simp [nextNat, h]

theorem sample_floats :
    ∀ (k : Nat) (r : RandomSource) (xs : List Nat), ((sample r xs k).2).floats = r.floats := by
  intro k
  induction k with
  | zero => intro r xs; rfl
  | succ n ih =>
    intro r xs
    by_cases hx : xs.length = 0
    · simp [sample, hx]
    · simp only [sample, hx, if_false]
      rw [ih]
      exact nextNat_floats r

theorem chance_zero (s : SimState) (h : s.infection_rate = 0) (a b : Person) :
    calculate_infection_chance s a b = 0 := by
  rw [calculate_infection_chance_eq, h]
  rw [zero_mul, zero_mul, zero_mul]
  exact min_eq_left (by norm_num)

theorem processContact_zero (i j : Nat) (st : SimState) (h : st.infection_rate = 0)
    (hw : WFFloats st.rng) :
    processContact i st j = { st with rng := (nextFloat st.rng).2 } := by
  simp only [processContact]
  rw [chance_zero st h]
  rw [if_neg (not_lt.mpr (nextFloat_nonneg st.rng hw))]

theorem foldl_processContact_zero (i : Nat) :
    ∀ (cs : List Nat) (st : SimState), st.infection_rate = 0 → WFFloats st.rng →
      (cs.foldl (processContact i) st).population = st.population ∧
      (cs.foldl (processContact i) st).infection_rate = 0 ∧
      WFFloats (cs.foldl (processContact i) st).rng := by
  intro cs
  induction cs with
  | nil => intro st h hw; exact ⟨rfl, h, hw⟩
  | cons a t ih =>
    intro st h hw
    rw [List.foldl_cons, processContact_zero i a st h hw]
    exact ih _ h (WFFloats_tail _ hw)

theorem processInfectious_zero (sus_ids : List Nat) (st : SimState) (i : Nat)
    (h : st.infection_rate = 0) (hw : WFFloats st.rng) :
    (processInfectious sus_ids st i).population = st.population ∧
    (processInfectious sus_ids st i).infection_rate = 0 ∧
    WFFloats (processInfectious sus_ids st i).rng := by
  by_cases hnc : num_contacts_for st (getPerson st.population i) sus_ids.length = 0
  · have he : processInfectious sus_ids st i = st := by
      simp [processInfectious, hnc]
    rw [he]
    exact ⟨rfl, h, hw⟩
  · have he : processInfectious sus_ids st i =
        (sample st.rng sus_ids
          (num_contacts_for st (getPerson st.population i) sus_ids.length).toNat).1.foldl
          (processContact i)
          { st with rng := (sample st.rng sus_ids
            (num_contacts_for st (getPerson st.population i) sus_ids.length).toNat).2 } := by
      simp [processInfectious, hnc]
    rw [he]
    refine foldl_processContact_zero i _ _ h ?_
    intro x hx
    refine hw x ?_
    rw [← sample_floats (num_contacts_for st (getPerson st.population i) sus_ids.length).toNat
      st.rng sus_ids]
    exact hx

theorem foldl_processInfectious_zero (sus_ids : List Nat) :
    ∀ (infs : List Nat) (st : SimState), st.infection_rate = 0 → WFFloats st.rng →
      (infs.foldl (processInfectious sus_ids) st).population = st.population ∧
      (infs.foldl (processInfectious sus_ids) st).infection_rate = 0 ∧
      WFFloats (infs.foldl (processInfectious sus_ids) st).rng := by
  intro infs
  induction infs with
  | nil => intro st h hw; exact ⟨rfl, h, hw⟩
  | cons a t ih =>
    intro st h hw
    rw [List.foldl_cons]
    obtain ⟨q1, q2, q3⟩ := processInfectious_zero sus_ids st a h hw
    obtain ⟨p1, p2, p3⟩ := ih _ q2 q3
    exact ⟨p1.trans q1, p2, p3⟩

/-- C2 counterexample: in the concrete state `cs2` with `base_contacts = 0`
(and `infection_rate = 1/2`), `simulate_interactions` transitions the
susceptible person 1 to infected — the at-least-one-contact clamp means
`base_contacts = 0` does not prevent transmission. -/
theorem base_contacts_zero_transmission :
    cs2.base_contacts = 0 ∧
    (getPerson cs2.population 1).status = HealthStatus.susceptible ∧
    (getPerson (simulate_interactions cs2).population 1).status =
      HealthStatus.infected := by
  refine ⟨rfl, rfl, ?_⟩
  decide

/-- C2 (amended): with `base_contacts = 0` and `infection_rate = 0`, no
transmission ever occurs: `simulate_interactions` leaves the population
unchanged on any day (for any well-formed draw stream). -/
theorem no_transmission_when_rate_zero (s : SimState) (hb : s.base_contacts = 0)
    (h0 : s.infection_rate = 0) (hw : WFFloats s.rng) :
    (simulate_interactions s).population = s.population := by
  unfold simulate_interactions
  exact (foldl_processInfectious_zero _ _ s h0 hw).1

/-- C2 witness: the amended statement at the concrete state `cs2zero`. -/
theorem no_transmission_when_rate_zero_witness :
    (simulate_interactions cs2zero).population = cs2zero.population :=
  no_transmission_when_rate_zero cs2zero rfl rfl (by unfold WFFloats; decide)

theorem ratTrunc_eq_floor (q : ℚ) (h : 0 ≤ q) : ratTrunc q = ⌊q⌋ := by
  unfold ratTrunc
  rw [Rat.floor_def]
  exact Int.tdiv_eq_ediv (Rat.num_nonneg.mpr h) (Int.natCast_nonneg _)

theorem sample_length :
    ∀ (k : Nat) (r : RandomSource) (xs : List Nat), k ≤ xs.length →
      (sample r xs k).1.length = k := by
  intro k
  induction k with
  | zero => intro r xs h; rfl
  | succ n ih =>
    intro r xs h
    have hx : ¬ xs.length = 0 := by omega
    simp only [sample, hx, if_false, List.length_cons]
    rw [ih]
    have hi : (nextNat r).1 % xs.length < xs.length := Nat.mod_lt _ (by omega)
    rw [List.length_eraseIdx_of_lt hi]
    omega

/-- C3: for each infectious person the attempted contact count equals
`min(max(1, c), |S|)` with `c = base_contacts` without distancing and
`c = floor(base_contacts * social_distancing_rate)` with it; `sample` then
returns exactly that many contacts; the count is zero exactly when the
susceptible snapshot is empty, and in that case the infectious person is
skipped with the whole state (random source included) unchanged. -/
theorem contact_count_formula (st : SimState) (inf : Person) (inf_id : Nat)
    (ids : List Nat) (r : RandomSource) (hr : 0 ≤ st.social_distancing_rate) :
    (num_contacts_for st inf ids.length =
      min (max 1 (if inf.social_distancing
          then ⌊(st.base_contacts : ℚ) * st.social_distancing_rate⌋
          else (st.base_contacts : Int))) (ids.length : Int)) ∧
    ((sample r ids (num_contacts_for st inf ids.length).toNat).1.length =
      (num_contacts_for st inf ids.length).toNat) ∧
    (num_contacts_for st inf ids.length = 0 ↔ ids = []) ∧
    (ids = [] → processInfectious ids st inf_id = st) := by
  have hnn : (0:ℚ) ≤ (st.base_contacts : ℚ) * st.social_distancing_rate :=
    mul_nonneg (Nat.cast_nonneg _) hr
  have he : num_contacts_for st inf ids.length =
      min (max 1 (if inf.social_distancing then
        ratTrunc ((st.base_contacts : ℚ) * st.social_distancing_rate)
        else (st.base_contacts : Int))) (ids.length : Int) := rfl
  refine ⟨?_, ?_, ?_, ?_⟩
  · rw [he]
    rcases hd : inf.social_distancing
    · simp
    · simp only [if_true]
      rw [ratTrunc_eq_floor _ hnn]
  · apply sample_length
    rw [he]
    generalize (if inf.social_distancing then
      ratTrunc ((st.base_contacts : ℚ) * st.social_distancing_rate)
      else (st.base_contacts : Int)) = raw
    omega
  · rw [← List.length_eq_zero, he]
    generalize (if inf.social_distancing then
      ratTrunc ((st.base_contacts : ℚ) * st.social_distancing_rate)
      else (st.base_contacts : Int)) = raw
    omega
  · intro h
    subst h
    have h0 : num_contacts_for st (getPerson st.population inf_id) 0 = 0 := by
      unfold num_contacts_for
      generalize (if (getPerson st.population inf_id).social_distancing then
        ratTrunc ((st.base_contacts : ℚ) * st.social_distancing_rate)
        else (st.base_contacts : Int)) = raw
      simp
    simp [processInfectious, h0]

/-- C3 witness: the contact-count formula at `cs2` with an empty
susceptible snapshot. -/
theorem contact_count_formula_witness :
    (num_contacts_for cs2 default ([] : List Nat).length =
      min (max 1 (if (default : Person).social_distancing
          then ⌊(cs2.base_contacts : ℚ) * cs2.social_distancing_rate⌋
          else (cs2.base_contacts : Int))) (([] : List Nat).length : Int)) ∧
    ((sample rng50 [] (num_contacts_for cs2 default ([] : List Nat).length).toNat).1.length =
      (num_contacts_for cs2 default ([] : List Nat).length).toNat) ∧
    (num_contacts_for cs2 default ([] : List Nat).length = 0 ↔ ([] : List Nat) = []) ∧
    (([] : List Nat) = [] → processInfectious [] cs2 0 = cs2) :=
  contact_count_formula cs2 default 0 [] rng50 (by norm_num [cs2])

/-- C4: whenever `run()` terminates, no person in the population has status
infected or infectious — the loop exits only in a state where every person
is susceptible, recovered, or dead. -/
theorem terminal_state_no_active_infections (pol : Policies) :
    ∀ (fuel : Nat) (s : SimState) (log : List (Nat × List Person))
      (s2 : SimState) (log2 : List (Nat × List Person)),
      runLoop pol fuel s log = some (s2, log2) →
      ∀ p ∈ s2.population,
        p.status = HealthStatus.susceptible ∨ p.status = HealthStatus.recovered ∨
          p.status = HealthStatus.dead := by
  intro fuel
  induction fuel with
  | zero =>
    intro s log s2 log2 h
    simp [runLoop] at h
  | succ n ih =>
    intro s log s2 log2 h p hp
    rw [runLoop] at h
    by_cases hact : hasActiveInfections (simulate_day pol s).population = true
    · rw [if_pos hact] at h
      exact ih _ _ _ _ h p hp
    · rw [if_neg hact] at h
      have hs2 : s2 = simulate_day pol s := by
        injection h with h1
        injection h1 with h2 h3
        exact h2.symm
      subst hs2
      have hall : p.is_infected = false ∧ p.is_infectious = false := by
        have hx : ¬ ((p.is_infected || p.is_infectious) = true) := by
          intro hcontra
          apply hact
          rw [hasActiveInfections, List.any_eq_true]
          exact ⟨p, hp, hcontra⟩
        rcases h1 : p.is_infected
        · rcases h2 : p.is_infectious
          · exact ⟨rfl, rfl⟩
          · exact absurd (by rw [h1, h2]; rfl) hx
        · exact absurd (by rw [h1]; rfl) hx
      rcases hst : p.status with _ | _ | _ | _ | _
      · exact Or.inl rfl
      · exfalso
        have : p.is_infected = true := by
          unfold Person.is_infected
          rw [hst]
        rw [this] at hall
        exact Bool.true_eq_false.mp hall.1
      · exfalso
        have : p.is_infectious = true := by
          unfold Person.is_infectious
          rw [hst]
        rw [this] at hall
        exact Bool.true_eq_false.mp hall.2
      · exact Or.inr (Or.inl rfl)
      · exact Or.inr (Or.inr rfl)

/-- C4 witness: with no infections present, one unit of fuel suffices and
the loop exits with the lone person still susceptible. -/
theorem terminal_state_no_active_infections_witness :
    runLoop pol0 1 sQuiet [] =
      some (simulate_day pol0 sQuiet, [(0, (simulate_day pol0 sQuiet).population)]) ∧
    ∀ p ∈ (simulate_day pol0 sQuiet).population,
      p.status = HealthStatus.susceptible ∨ p.status = HealthStatus.recovered ∨
        p.status = HealthStatus.dead := by
  have hrun : runLoop pol0 1 sQuiet [] =
      some (simulate_day pol0 sQuiet, [(0, (simulate_day pol0 sQuiet).population)]) := by
    rw [runLoop]
    have hact : hasActiveInfections (simulate_day pol0 sQuiet).population = false := by
      decide
    rw [if_neg (by rw [hact]; exact Bool.false_ne_true)]
    rfl
  exact ⟨hrun, terminal_state_no_active_infections pol0 1 sQuiet []
    (simulate_day pol0 sQuiet) [(0, (simulate_day pol0 sQuiet).population)] hrun⟩

/-- C9: for a fixed random seed and a fixed configuration, two independent
runs are identical — the same state is constructed (same initial
infections) and the whole run, including every per-day statistics record,
is bit-identical. -/
theorem run_deterministic (pol : Policies) (fuel : Nat) (cfg1 cfg2 : SimConfig)
    (r1 r2 : RandomSource) (hc : cfg1 = cfg2) (hr : r1 = r2) :
    construct cfg1 r1 = construct cfg2 r2 ∧
    runSimulation pol fuel cfg1 r1 = runSimulation pol fuel cfg2 r2 := by
  subst hc
  subst hr
  exact ⟨rfl, rfl⟩

/-- C9 witness: the two runs at the concrete configuration `cfg50` and seed
stream `rng50` coincide. -/
theorem run_deterministic_witness :
    construct cfg50 rng50 = construct cfg50 rng50 ∧
    runSimulation pol0 3 cfg50 rng50 = runSimulation pol0 3 cfg50 rng50 :=
  run_deterministic pol0 3 cfg50 cfg50 rng50 rng50 rfl rfl

theorem validateRest_eq_spec (cfg : SimConfig) (k : Nat) :
    validateRest cfg k =
      (match ((specRulesTail cfg).find? fun r => r.1).map (fun r => r.2) with
       | some e => Except.error e
       | none => Except.ok k) := by
  unfold validateRest specRulesTail
  by_cases h1 : 0 ≤ cfg.infection_rate ∧ cfg.infection_rate ≤ 1
  · by_cases h2 : cfg.incubation_period ≤ 0
    · simp [List.find?, h1, h2]
    · by_cases h3 : cfg.infectious_period ≤ 0
      · simp [List.find?, h1, h2, h3]
      · by_cases h4 : cfg.base_contacts < 0
        · simp [List.find?, h1, h2, h3, h4]
        · by_cases h5 : 0 ≤ cfg.social_distancing_rate ∧ cfg.social_distancing_rate ≤ 1
          · by_cases h6 : 0 ≤ cfg.mortality_rate ∧ cfg.mortality_rate ≤ 1
            · simp [List.find?, h1, h2, h3, h4, h5, h6]
            · simp [List.find?, h1, h2, h3, h4, h5, h6]
          · simp [List.find?, h1, h2, h3, h4, h5]
  · simp [List.find?, h1]

theorem specRulesHead_none_int (cfg : SimConfig) (n : Int)
    (hii : cfg.initial_infected = InitialInfected.int n)
    (h1 : ¬ cfg.population_size ≤ 0) (h2 : 0 ≤ n ∧ n ≤ cfg.population_size) :
    (specRulesHead cfg).find? (fun r => r.1) = none := by
  unfold specRulesHead
  rw [hii]
  simp [List.find?, h1, h2]

theorem specRulesHead_none_float (cfg : SimConfig) (q : ℚ)
    (hii : cfg.initial_infected = InitialInfected.float q)
    (h1 : ¬ cfg.population_size ≤ 0) (h2 : 0 ≤ q ∧ q ≤ 1) :
    (specRulesHead cfg).find? (fun r => r.1) = none := by
  unfold specRulesHead
  rw [hii]
  simp [List.find?, h1, h2]

/-- C5: construction fails exactly when one of the validation rules is
violated, in the spec's order with the first failing rule determining the
distinct error; on failure no state is constructed (`construct` propagates
the same error), and the mask/vaccine effectiveness factors never
participate in validation. -/
theorem validation_first_failure (cfg : SimConfig) :
    (validate cfg =
      (match firstViolation cfg with
       | some e => Except.error e
       | none => Except.ok (resolvedCount cfg))) ∧
    (∀ (rng : RandomSource) (e : ConfigError),
      construct cfg rng = Except.error e ↔ validate cfg = Except.error e) ∧
    (∀ a b c : ℚ,
      validate { cfg with mask_effectiveness := a,
                          partial_vaccine_effectiveness := b,
                          full_vaccine_effectiveness := c } = validate cfg) := by
  refine ⟨?_, ?_, ?_⟩
  · unfold firstViolation specRules
    by_cases h1 : cfg.population_size ≤ 0
    · unfold validate specRulesHead
      simp [List.find?, h1]
    · rcases hii : cfg.initial_infected with n | q | _
      · by_cases h2 : 0 ≤ n ∧ n ≤ cfg.population_size
        · rw [List.find?_append, specRulesHead_none_int cfg n hii h1 h2]
          unfold validate
          rw [hii]
          simp only [h1, h2, if_false, if_true, not_true_eq_false, not_false_eq_true,
            Option.none_or]
          rw [validateRest_eq_spec]
          unfold resolvedCount
          rw [hii]
          simp
        · unfold validate specRulesHead
          rw [hii]
          simp [List.find?, h1, h2]
      · by_cases h2 : 0 ≤ q ∧ q ≤ 1
        · rw [List.find?_append, specRulesHead_none_float cfg q hii h1 h2]
          unfold validate
          rw [hii]
          simp only [h1, h2, if_false, if_true, not_true_eq_false, not_false_eq_true,
            Option.none_or]
          rw [validateRest_eq_spec]
          unfold resolvedCount
          rw [hii]
          simp
        · unfold validate specRulesHead
          rw [hii]
          simp [List.find?, h1, h2]
      · unfold validate specRulesHead
        rw [hii]
        simp [List.find?, h1]
  · intro rng e
    unfold construct
    rcases hv : validate cfg with e2 | k
    · simp
    · simp
  · intro a b c
    rfl

theorem sample_subset :
    ∀ (k : Nat) (r : RandomSource) (xs : List Nat), ∀ a ∈ (sample r xs k).1, a ∈ xs := by
  intro k
  induction k with
  | zero => intro r xs a ha; simp [sample] at ha
  | succ n ih =>
    intro r xs a ha
    by_cases hx : xs.length = 0
    · simp [sample, hx] at ha
    · simp only [sample, hx, if_false, List.mem_cons] at ha
      rcases ha with ha | ha
      · subst ha
        have hi : (nextNat r).1 % xs.length < xs.length := Nat.mod_lt _ (by omega)
        rw [List.getD_eq_getElem _ _ hi]
        exact List.getElem_mem hi
      · exact List.eraseIdx_subset _ _ (ih _ _ a ha)

theorem sample_nodup :
    ∀ (k : Nat) (r : RandomSource) (xs : List Nat), xs.Nodup → (sample r xs k).1.Nodup := by
  intro k
  induction k with
  | zero => intro r xs h; simp [sample]
  | succ n ih =>
    intro r xs h
    by_cases hx : xs.length = 0
    · simp [sample, hx]
    · simp only [sample, hx, if_false]
      rw [List.nodup_cons]
      have hi : (nextNat r).1 % xs.length < xs.length := Nat.mod_lt _ (by omega)
      refine ⟨?_, ih _ _ (h.eraseIdx _)⟩
      intro hmem
      have hsub := sample_subset n (nextNat r).2
        (xs.eraseIdx ((nextNat r).1 % xs.length)) _ hmem
      rw [List.getD_eq_getElem _ _ hi] at hsub
      rw [← List.Nodup.erase_getElem h _ hi] at hsub
      exact List.Nodup.not_mem_erase h hsub

theorem infectById_eq_map (pop : List Person) (a : Nat) :
    infectById pop a = pop.map (markStep a) := rfl

theorem foldl_infectById_map {α : Type} (ids : List Nat) :
    ∀ (l : List α) (f : α → Person),
      ids.foldl infectById (l.map f) = l.map fun x => markIds ids (f x) := by
  induction ids with
  | nil => intro l f; simp [markIds]
  | cons a t ih =>
    intro l f
    rw [List.foldl_cons, infectById_eq_map, List.map_map]
    rw [ih l (markStep a ∘ f)]
    rfl

theorem markIds_not_susceptible (ids : List Nat) :
    ∀ (p : Person), p.status ≠ HealthStatus.susceptible → markIds ids p = p := by
  induction ids with
  | nil => intro p _; rfl
  | cons a t ih =>
    intro p h
    have hstep : markStep a p = p := by
      by_cases hid : p.id = a <;> simp [markStep, Person.infected, hid, h]
    have hcons : markIds (a :: t) p = markIds t (markStep a p) := rfl
    rw [hcons, hstep]
    exact ih p h

theorem markIds_init (ids : List Nat) :
    ∀ (j : Nat), markIds ids (initPerson j) =
      if j ∈ ids then Person.infected (initPerson j) else initPerson j := by
  induction ids with
  | nil => intro j; simp [markIds]
  | cons a t ih =>
    intro j
    have hcons : markIds (a :: t) (initPerson j) = markIds t (markStep a (initPerson j)) := rfl
    by_cases hj : j = a
    · subst hj
      have hstep : markStep j (initPerson j) = Person.infected (initPerson j) := by
        simp [markStep, initPerson]
      rw [hcons, hstep]
      rw [markIds_not_susceptible t _ (by simp [Person.infected, initPerson])]
      simp
    · have hstep : markStep a (initPerson j) = initPerson j := by
        simp [markStep, initPerson, hj]
      rw [hcons, hstep, ih j]
      simp [List.mem_cons, hj]

theorem countInfected_eq_countP (pop : List Person) :
    countInfected pop = pop.countP fun p => decide (p.status = HealthStatus.infected) := by
  unfold countInfected
  rw [List.countP_eq_length_filter]

theorem length_filter_mem (ids : List Nat) (ps : Nat) (hnd : ids.Nodup)
    (hsub : ∀ a ∈ ids, a ∈ List.range ps) :
    ((List.range ps).filter fun j => decide (j ∈ ids)).length = ids.length := by
  apply List.Perm.length_eq
  rw [List.perm_ext_iff_of_nodup ((List.nodup_range ps).filter _) hnd]
  intro a
  simp only [List.mem_filter, List.mem_range, decide_eq_true_eq]
  constructor
  · rintro ⟨_, h2⟩
    exact h2
  · intro h
    exact ⟨by simpa using List.mem_range.mp (hsub a h), h⟩

theorem validateRest_ok_val (cfg : SimConfig) (k m : Nat)
    (h : validateRest cfg k = Except.ok m) : m = k := by
  unfold validateRest at h
  split_ifs at h <;> simp_all

theorem validate_float_ok (cfg : SimConfig) (q : ℚ) (k : Nat)
    (hf : cfg.initial_infected = InitialInfected.float q)
    (h : validate cfg = Except.ok k) :
    0 < cfg.population_size ∧ 0 ≤ q ∧ q ≤ 1 ∧
      k = (ratTrunc ((cfg.population_size : ℚ) * q)).toNat := by
  simp only [validate, hf] at h
  by_cases h1 : cfg.population_size ≤ 0
  · rw [if_pos h1] at h
    simp at h
  · rw [if_neg h1] at h
    by_cases h2 : 0 ≤ q ∧ q ≤ 1
    · rw [if_neg (not_not_intro h2)] at h
      exact ⟨by omega, h2.1, h2.2, validateRest_ok_val cfg _ k h⟩
    · rw [if_pos h2] at h
      simp at h

/-- C6: when `initial_infected` is a float `q` in `[0,1]` and construction
succeeds, exactly `floor(population_size * q)` persons are infected at
construction, the ids drawn by `random.sample` on the seeded generator are
distinct and lie in `0..population_size-1`, and everyone else stays
susceptible. -/
theorem initial_infected_fraction (cfg : SimConfig) (rng : RandomSource) (q : ℚ)
    (s : SimState) (hf : cfg.initial_infected = InitialInfected.float q)
    (hok : construct cfg rng = Except.ok s) :
    countInfected s.population = (⌊(cfg.population_size : ℚ) * q⌋).toNat ∧
    ((sample rng (List.range cfg.population_size.toNat)
        (⌊(cfg.population_size : ℚ) * q⌋).toNat).1).Nodup ∧
    (∀ a ∈ (sample rng (List.range cfg.population_size.toNat)
        (⌊(cfg.population_size : ℚ) * q⌋).toNat).1,
      a ∈ List.range cfg.population_size.toNat) ∧
    (∀ p ∈ s.population,
      p.status = HealthStatus.infected ∨ p.status = HealthStatus.susceptible) := by
  rcases hv : validate cfg with e | k
  · simp [construct, hv] at hok
  obtain ⟨hps, hq0, hq1, hk⟩ := validate_float_ok cfg q k hf hv
  have hcast : (0:ℚ) ≤ (cfg.population_size : ℚ) :=
    Int.cast_nonneg.mpr (le_of_lt hps)
  have hprod0 : (0:ℚ) ≤ (cfg.population_size : ℚ) * q := mul_nonneg hcast hq0
  have htr : ratTrunc ((cfg.population_size : ℚ) * q) =
      ⌊(cfg.population_size : ℚ) * q⌋ := ratTrunc_eq_floor _ hprod0
  have hkk : k = (⌊(cfg.population_size : ℚ) * q⌋).toNat := by rw [hk, htr]
  have hfl : ⌊(cfg.population_size : ℚ) * q⌋ ≤ cfg.population_size := by
    have hle : (cfg.population_size : ℚ) * q ≤ (cfg.population_size : ℚ) :=
      mul_le_of_le_one_right hcast hq1
    have := Int.floor_le_floor hle
    rwa [Int.floor_intCast] at this
  have hkle : (⌊(cfg.population_size : ℚ) * q⌋).toNat ≤ cfg.population_size.toNat := by
    omega
  subst hkk
  have hpop : s =
      { population := (sample rng (List.range cfg.population_size.toNat)
            (⌊(cfg.population_size : ℚ) * q⌋).toNat).1.foldl infectById
            ((List.range cfg.population_size.toNat).map initPerson)
        infection_rate := cfg.infection_rate
        incubation_period := cfg.incubation_period.toNat
        infectious_period := cfg.infectious_period.toNat
        base_contacts := cfg.base_contacts.toNat
        social_distancing_rate := cfg.social_distancing_rate
        mortality_rate := cfg.mortality_rate
        mask_effectiveness := cfg.mask_effectiveness
        partial_vaccine_effectiveness := cfg.partial_vaccine_effectiveness
        full_vaccine_effectiveness := cfg.full_vaccine_effectiveness
        day := 0
        rng := (sample rng (List.range cfg.population_size.toNat)
            (⌊(cfg.population_size : ℚ) * q⌋).toNat).2 } := by
    have := hok
    simp only [construct, hv] at this
    exact (Except.ok.inj this).symm
  subst hpop
  have hnd : ((sample rng (List.range cfg.population_size.toNat)
      (⌊(cfg.population_size : ℚ) * q⌋).toNat).1).Nodup :=
    sample_nodup _ _ _ (List.nodup_range _)
  have hsub : ∀ a ∈ (sample rng (List.range cfg.population_size.toNat)
      (⌊(cfg.population_size : ℚ) * q⌋).toNat).1, a ∈ List.range cfg.population_size.toNat :=
    sample_subset _ _ _
  have hchar : (sample rng (List.range cfg.population_size.toNat)
        (⌊(cfg.population_size : ℚ) * q⌋).toNat).1.foldl infectById
        ((List.range cfg.population_size.toNat).map initPerson) =
      (List.range cfg.population_size.toNat).map fun j =>
        if j ∈ (sample rng (List.range cfg.population_size.toNat)
            (⌊(cfg.population_size : ℚ) * q⌋).toNat).1
        then Person.infected (initPerson j) else initPerson j := by
    rw [foldl_infectById_map]
    exact List.map_congr_left fun j _ => markIds_init _ j
  refine ⟨?_, hnd, hsub, ?_⟩
  · show countInfected ((sample rng (List.range cfg.population_size.toNat)
        (⌊(cfg.population_size : ℚ) * q⌋).toNat).1.foldl infectById
        ((List.range cfg.population_size.toNat).map initPerson)) = _
    rw [hchar, countInfected_eq_countP, List.countP_map]
    rw [List.countP_congr ?_]
    case _ =>
      rw [List.countP_eq_length_filter, length_filter_mem _ _ hnd hsub]
      rw [sample_length _ rng _ (by simpa using hkle)]
    intro j _
    by_cases hm : j ∈ (sample rng (List.range cfg.population_size.toNat)
        (⌊(cfg.population_size : ℚ) * q⌋).toNat).1 <;>
      simp [hm, Person.infected, initPerson]
  · intro p hp
    simp only [hchar] at hp
    obtain ⟨j, _, rfl⟩ := List.mem_map.mp hp
    by_cases hm : j ∈ (sample rng (List.range cfg.population_size.toNat)
        (⌊(cfg.population_size : ℚ) * q⌋).toNat).1 <;>
      simp [hm, Person.infected, initPerson]

/-- C6 witness: `population_size = 50` with `initial_infected = 0.1`
resolves to exactly `floor(50 * 0.1) = 5` initially infected persons. -/
theorem initial_infected_fraction_witness :
    countInfected s50.population = 5 := by
  have h := (initial_infected_fraction cfg50 rng50 (1/10) s50 rfl rfl).1
  rw [h]
  norm_num [cfg50]
  rfl

end PandemicSim
